import Mathlib

/-!
Verification of the Metis desktop agent control core
(src/metis-agent/src-tauri/src/{main.rs, action.rs, recording_commands.rs})
against its natural-language specification.

The Rust control core is shallowly embedded below. Rust `&str` values are
modelled as `List Char`; external collaborators (filesystem, screenshot
pipeline, OCR backend, LLM planner, OS input injection) are modelled as
environment records supplying the result of each external call, while the
Input Capability (enigo) calls are recorded as an explicit operation trace.
Machine integers (`i32`) are modelled as `Int` with explicit range checks.
-/

set_option maxRecDepth 20000

namespace Metis

/-- Decidable equality for `Except`, used to evaluate concrete runs. -/
instance {ε α : Type} [DecidableEq ε] [DecidableEq α] : DecidableEq (Except ε α) := fun a b =>
  match a, b with
  | .ok x, .ok y =>
    if h : x = y then .isTrue (congrArg Except.ok h)
    else .isFalse (fun hh => h (Except.ok.inj hh))
  | .error x, .error y =>
    if h : x = y then .isTrue (congrArg Except.error h)
    else .isFalse (fun hh => h (Except.error.inj hh))
  | .ok _, .error _ => .isFalse (fun hh => Except.noConfusion hh)
  | .error _, .ok _ => .isFalse (fun hh => Except.noConfusion hh)

/-- Single-quote character (ASCII 39); the Rust source uses it as the
delimiter of key, text and done payloads. -/
def sq : Char := Char.ofNat 39

/-- Whitespace test: the ASCII subset of Rust `char::is_whitespace` that is
relevant to the payloads handled by the interpreter. -/
def isWS (c : Char) : Bool := c = ' ' || c = '\t' || c = '\n' || c = '\r'

/-- Embeds Rust `str::trim`. -/
def rsTrim (cs : List Char) : List Char :=
  ((cs.dropWhile isWS).reverse.dropWhile isWS).reverse

/-- Embeds Rust `s.splitn(2, sep)`: `some (before, after)` when `sep` occurs
in `s`, `none` when it does not (in which case Rust yields a single part, so
the `parts.len() != 2` check in `do_action` fails). -/
def rsSplitn2 (sep : Char) : List Char → Option (List Char × List Char)
  | [] => none
  | c :: rest =>
    if c = sep then some ([], rest)
    else (rsSplitn2 sep rest).map (fun p => (c :: p.1, p.2))

/-- Embeds Rust `str::starts_with(c)` for a single character. -/
def rsStartsWithChar (c : Char) : List Char → Bool
  | [] => false
  | a :: _ => a = c

/-- Embeds Rust `str::ends_with(c)` for a single character. -/
def rsEndsWithChar (c : Char) (cs : List Char) : Bool :=
  match cs.getLast? with
  | some a => a = c
  | none => false

/-- Embeds Rust `str::trim_matches(c)`: strips every leading and trailing
occurrence of `c`. -/
def rsTrimMatchesChar (c : Char) (cs : List Char) : List Char :=
  ((cs.dropWhile (· = c)).reverse.dropWhile (· = c)).reverse

/-- ASCII digit test, as used by the regex class `\d` and by `i32::from_str`. -/
def isDigitCh (c : Char) : Bool := '0' ≤ c && c ≤ '9'

def digitVal (c : Char) : Nat := c.toNat - 48

def digitsToNat (ds : List Char) : Nat := ds.foldl (fun a c => a * 10 + digitVal c) 0

/-- Embeds `str::parse::<i32>()` (Rust `i32::from_str`): an optional single
sign followed by one or more ASCII digits, consuming the whole string, with
an `i32` range check. Error texts follow `ParseIntError`. -/
def rsParseI32 (cs : List Char) : Except (List Char) Int :=
  match cs with
  | [] => .error ("cannot parse integer from empty string".toList)
  | _ =>
    let sd : Bool × List Char :=
      match cs with
      | '-' :: rest => (true, rest)
      | '+' :: rest => (false, rest)
      | _ => (false, cs)
    let neg := sd.1
    let ds := sd.2
    if ds = [] then .error ("invalid digit found in string".toList)
    else if !(ds.all isDigitCh) then .error ("invalid digit found in string".toList)
    else
      let n : Nat := digitsToNat ds
      if neg then
        if n ≤ 2147483648 then .ok (-(n : Int))
        else .error ("number too small to fit in target type".toList)
      else
        if n ≤ 2147483647 then .ok ((n : Int))
        else .error ("number too large to fit in target type".toList)

/-! ### The coordinate regex of `parse_coordinate` (action.rs)

The source compiles the regex `\(\s*(-?\d+)\s*,\s*(-?\d+)\s*\)` and calls
`re.captures(coord_str)`, which finds the leftmost match anywhere in the
string (the pattern is not anchored). For this pattern the character classes
at each juncture are disjoint, so greedy matching is deterministic and a
direct one-pass matcher is an exact embedding of the regex semantics. -/

/-- Greedy `\d+` style digit prefix: matched digits and remainder. -/
def takeDigits : List Char → (List Char × List Char)
  | [] => ([], [])
  | c :: rest =>
    if isDigitCh c then
      let p := takeDigits rest
      (c :: p.1, p.2)
    else ([], c :: rest)

/-- Greedy `\s*`. -/
def skipWS (cs : List Char) : List Char := cs.dropWhile isWS

/-- Matches the regex fragment `-?\d+` at the head of the input, returning
the matched text (the capture) and the remainder. -/
def matchNum : List Char → Option (List Char × List Char)
  | '-' :: rest =>
    match takeDigits rest with
    | ([], _) => none
    | (ds, r) => some ('-' :: ds, r)
  | cs =>
    match takeDigits cs with
    | ([], _) => none
    | (ds, r) => some (ds, r)

/-- Attempts the whole coordinate pattern at the head of `cs`; on success
returns the two captured number substrings. -/
def matchCoordAt (cs : List Char) : Option (List Char × List Char) :=
  match cs with
  | '(' :: r1 =>
    match matchNum (skipWS r1) with
    | none => none
    | some (xs, r2) =>
      match skipWS r2 with
      | ',' :: r3 =>
        match matchNum (skipWS r3) with
        | none => none
        | some (ys, r4) =>
          match skipWS r4 with
          | ')' :: _ => some (xs, ys)
          | _ => none
      | _ => none
  | _ => none

/-- Leftmost search, as performed by `Regex::captures`. -/
def findCoordMatch : List Char → Option (List Char × List Char)
  | [] => none
  | c :: rest =>
    match matchCoordAt (c :: rest) with
    | some caps => some caps
    | none => findCoordMatch rest

/-- Embeds `parse_coordinate` from action.rs: leftmost regex match, then
`parse::<i32>` of each capture. -/
def parse_coordinate (coord_str : List Char) : Except (List Char) (Int × Int) :=
  match findCoordMatch coord_str with
  | some (xs, ys) =>
    match rsParseI32 xs with
    | .error e => .error e
    | .ok x =>
      match rsParseI32 ys with
      | .error e => .error e
      | .ok y => .ok (x, y)
  | none => .error ("Invalid coordinate format: ".toList ++ coord_str)

/-! ### Key parsing (`parse_key`, action.rs) -/

/-- The closed set of named enigo keys that `parse_key` can produce. -/
inductive RsKey
  | alt | backspace | capsLock | control | delete | downArrow | endKey | escape
  | f1 | f2 | f3 | f4 | f5 | f6 | f7 | f8 | f9 | f10 | f11 | f12
  | home | leftArrow | meta | optionKey | pageDown | pageUp | returnKey
  | rightArrow | shift | space | tab | upArrow
  deriving DecidableEq

/-- Result of `parse_key`: a named key or a single literal character. -/
inductive ParsedKey
  | key (k : RsKey)
  | chr (c : Char)
  deriving DecidableEq

/-- Embeds `parse_key` from action.rs: the payload must be single-quoted and
at least three characters long once trimmed; the inner text is matched
against the alias table, any other single character is literal text, and any
other multi-character token is an error. -/
def parse_key (key_str : List Char) : Except (List Char) ParsedKey :=
  let trimmed := rsTrim key_str
  if !(rsStartsWithChar sq trimmed) || !(rsEndsWithChar sq trimmed) || trimmed.length < 3 then
    .error ("Invalid key format: ".toList ++ key_str)
  else
    let key_inner := (trimmed.drop 1).dropLast
    match String.mk key_inner with
    | "Alt" | "alt" => .ok (.key .alt)
    | "Backspace" | "backspace" => .ok (.key .backspace)
    | "CapsLock" | "capslock" => .ok (.key .capsLock)
    | "Control" | "ctrl" | "control" => .ok (.key .control)
    | "Delete" | "del" | "delete" => .ok (.key .delete)
    | "DownArrow" | "down" => .ok (.key .downArrow)
    | "End" | "end" => .ok (.key .endKey)
    | "Escape" | "esc" => .ok (.key .escape)
    | "F1" => .ok (.key .f1)
    | "F2" => .ok (.key .f2)
    | "F3" => .ok (.key .f3)
    | "F4" => .ok (.key .f4)
    | "F5" => .ok (.key .f5)
    | "F6" => .ok (.key .f6)
    | "F7" => .ok (.key .f7)
    | "F8" => .ok (.key .f8)
    | "F9" => .ok (.key .f9)
    | "F10" => .ok (.key .f10)
    | "F11" => .ok (.key .f11)
    | "F12" => .ok (.key .f12)
    | "Home" | "home" => .ok (.key .home)
    | "LeftArrow" | "left" => .ok (.key .leftArrow)
    | "Meta" | "meta" | "win" | "cmd" | "command" => .ok (.key .meta)
    | "Option" | "option" => .ok (.key .optionKey)
    | "PageDown" | "pagedown" => .ok (.key .pageDown)
    | "PageUp" | "pageup" => .ok (.key .pageUp)
    | "Return" | "return" | "Enter" | "enter" => .ok (.key .returnKey)
    | "RightArrow" | "right" => .ok (.key .rightArrow)
    | "Shift" | "shift" => .ok (.key .shift)
    | "Space" | "space" | " " => .ok (.key .space)
    | "Tab" | "tab" => .ok (.key .tab)
    | "UpArrow" | "up" => .ok (.key .upArrow)
    | _ =>
      match key_inner with
      | [c] => .ok (.chr c)
      | _ =>
        .error ("Unknown or unsupported key: ".toList ++ [sq] ++ key_inner ++ [sq])

/-! ### The action interpreter (`do_action`, action.rs) -/

/-- Input Capability operations (the enigo calls issued by `do_action`). -/
inductive InputOp
  | moveMouseAbs (x y : Int)
  | buttonClick
  | buttonPressDown
  | buttonRelease
  | keyClick (k : RsKey)
  | keyHold (k : RsKey)
  | keyRelease (k : RsKey)
  | textOp (s : List Char)
  | scrollV (n : Int)
  deriving DecidableEq

/-- Result of a successful `do_action`: `Ok(true)` (continue) is `.cont`,
`Ok(false)` ("done") is `.done msg` where `msg` is the completion message
the source computes (and prints) in the `done` arm. -/
inductive DoRes
  | cont
  | done (msg : List Char)
  deriving DecidableEq

/-- Error text of the `tap_down` arm for a literal character. -/
def tapDownCharErr (c : Char) : List Char :=
  [sq] ++ "tap_down".toList ++ [sq] ++ " action is not supported for single character ".toList
    ++ [sq] ++ [c] ++ [sq] ++ ". Use specific Key names like ".toList
    ++ [sq] ++ "Shift".toList ++ [sq] ++ ".".toList

/-- Error text of the `tap_up` arm for a literal character. -/
def tapUpCharErr (c : Char) : List Char :=
  [sq] ++ "tap_up".toList ++ [sq] ++ " action is not supported for single character ".toList
    ++ [sq] ++ [c] ++ [sq] ++ ". Use specific Key names like ".toList
    ++ [sq] ++ "Shift".toList ++ [sq] ++ ".".toList

/-- Embeds `do_action` from action.rs. The Input Capability calls are modelled
as recorded operations that always succeed (enigo is an external collaborator);
the returned list is the sequence of operations issued before `do_action`
returns, so a parse failure before any call yields an empty trace. -/
def do_action (action_str : List Char) : List InputOp × Except (List Char) DoRes :=
  match rsSplitn2 ':' action_str with
  | none => ([], .error ("Invalid action format: ".toList ++ action_str))
  | some (action_type, value_str) =>
    if action_type = "click".toList then
      match parse_coordinate value_str with
      | .error e => ([], .error e)
      | .ok (x, y) => ([.moveMouseAbs x y, .buttonClick], .ok .cont)
    else if action_type = "click_down".toList then
      match parse_coordinate value_str with
      | .error e => ([], .error e)
      | .ok (x, y) => ([.moveMouseAbs x y, .buttonPressDown], .ok .cont)
    else if action_type = "click_up".toList then
      -- a value other than "nil" only produces a logged warning
      ([.buttonRelease], .ok .cont)
    else if action_type = "drag".toList then
      match parse_coordinate value_str with
      | .error e => ([], .error e)
      | .ok (x, y) => ([.moveMouseAbs x y], .ok .cont)
    else if action_type = "tap".toList then
      match parse_key value_str with
      | .error e => ([], .error e)
      | .ok (.key k) => ([.keyClick k], .ok .cont)
      | .ok (.chr c) => ([.textOp [c]], .ok .cont)
    else if action_type = "tap_down".toList then
      match parse_key value_str with
      | .error e => ([], .error e)
      | .ok (.key k) => ([.keyHold k], .ok .cont)
      | .ok (.chr c) => ([], .error (tapDownCharErr c))
    else if action_type = "tap_up".toList then
      match parse_key value_str with
      | .error e => ([], .error e)
      | .ok (.key k) => ([.keyRelease k], .ok .cont)
      | .ok (.chr c) => ([], .error (tapUpCharErr c))
    else if action_type = "scroll".toList then
      match rsParseI32 value_str with
      | .error e =>
        ([], .error ("Invalid scroll value: ".toList ++ value_str ++ ". ".toList ++ e))
      | .ok units => ([.scrollV units], .ok .cont)
    else if action_type = "type".toList then
      let trimmed := rsTrim value_str
      if !(rsStartsWithChar sq trimmed) || !(rsEndsWithChar sq trimmed) || trimmed.length < 2 then
        ([], .error ("Invalid type format: ".toList ++ value_str))
      else
        ([.textOp ((trimmed.drop 1).dropLast)], .ok .cont)
    else if action_type = "done".toList then
      let trimmed := rsTrim value_str
      let done_message :=
        if rsStartsWithChar sq trimmed && rsEndsWithChar sq trimmed && 2 ≤ trimmed.length then
          (trimmed.drop 1).dropLast
        else trimmed
      ([], .ok (.done done_message))
    else
      ([], .error ("Unknown action type: ".toList ++ action_type))

/-! ### Session state machine (main.rs)

`GLOBAL_APP_STATE` and `RECORDING_STATE` are process-wide mutexed statics;
sequential command execution is modelled as explicit state passing. The
`ACTION_INTERRUPTED` atomic lives in action.rs and is distinct from the
`action_interrupted` field of `GlobalAppState` (the two are never connected
in the source: the global listener writes the field, while the execution
loop polls the static set by its own ESC listener). -/

inductive AppInputState
  | Idle
  | Recording
  | ExecutingAction
  deriving DecidableEq

structure GlobalAppState where
  input_state : AppInputState
  action_interrupted : Bool
  deriving DecidableEq

/-- The fields of main.rs `RecordingState` that the session-control commands
and the execution loop read or write (the input-metrics fields only feed the
global listener, modelled separately). Paths are opaque strings. -/
structure RecordingState where
  active : Bool
  verified : Bool
  base_folder : Option (List Char)
  current_action_folder : Option (List Char)
  deriving DecidableEq

/-- Whole-process shared state: `GLOBAL_APP_STATE`, `RECORDING_STATE` and the
action.rs `ACTION_INTERRUPTED` atomic. -/
structure ProcState where
  app : GlobalAppState
  recSt : RecordingState
  action_interrupted : Bool
  deriving DecidableEq

/-- Opaque stand-in for `get_default_base_folder()` (Downloads/screenshots). -/
def defaultBaseFolder : List Char := "Downloads/screenshots".toList

/-- External-call results consumed by `start_recording` (filesystem work). -/
structure StartRecEnv where
  createPaths : Except (List Char) Unit
  findActionFolder : Except (List Char) (List Char)
  createMainCsv : Except (List Char) Unit

/-- Embeds `start_recording` (main.rs): refuses unless the global state is
Idle, sets Recording first, then performs the filesystem work (whose failures
return early with the mode already set to Recording, as in the source), and
finally initialises the recording state. -/
def start_recording (env : StartRecEnv) (st : ProcState) :
    Except (List Char) (List Char) × ProcState :=
  if st.app.input_state ≠ AppInputState.Idle then
    (.error ("Cannot start recording while in state: ...".toList), st)
  else
    let st1 : ProcState := { st with app := { st.app with input_state := .Recording } }
    match env.createPaths with
    | .error e => (.error ("Failed to create recording paths: ".toList ++ e), st1)
    | .ok _ =>
      match env.findActionFolder with
      | .error e => (.error e, st1)
      | .ok folder =>
        match env.createMainCsv with
        | .error e => (.error ("Failed to update main.csv: ".toList ++ e), st1)
        | .ok _ =>
          let st2 : ProcState :=
            { st1 with recSt :=
                { active := true
                  verified := false
                  base_folder := some defaultBaseFolder
                  current_action_folder := some folder } }
          (.ok ("Recording started (Action Folder: ".toList ++ folder ++ ")".toList), st2)

/-- Embeds `verify_recording` (main.rs): requires Recording mode and an active
recording; idempotent when already verified; sets `verified` before reading
the base folder (so the missing-folder error leaves `verified` set, as in the
source). -/
def verify_recording (st : ProcState) : Except (List Char) (List Char) × ProcState :=
  if st.app.input_state ≠ AppInputState.Recording then
    (.error ("Cannot verify, not in Recording state.".toList), st)
  else if !st.recSt.active then
    (.error ("Recording is not active (internal state mismatch).".toList), st)
  else if st.recSt.verified then
    (.ok ("Recording already verified.".toList), st)
  else
    let st1 : ProcState := { st with recSt := { st.recSt with verified := true } }
    match st1.recSt.base_folder with
    | none => (.error ("Base folder not set during verification.".toList), st1)
    | some _ =>
      (.ok ("Recording verified. Input events will now trigger screenshots.".toList), st1)

/-- Embeds `stop_recording` (main.rs): a stop outside Recording mode only logs
a warning; the mode is forced to Idle unconditionally, then the recording
state is torn down; stopping an already-inactive recording is an `Ok`. The
background post-processing thread is external and not modelled. -/
def stop_recording (st : ProcState) : Except (List Char) (List Char) × ProcState :=
  let st1 : ProcState := { st with app := { st.app with input_state := .Idle } }
  if !st1.recSt.active then
    (.ok ("Recording was already inactive.".toList), st1)
  else
    let st2 : ProcState := { st1 with recSt := { st1.recSt with active := false, verified := false } }
    match st2.recSt.base_folder with
    | none => (.error ("Base folder was not set.".toList), st2)
    | some _ => (.ok ("Recording stopped. Processing in background.".toList), st2)

/-! ### The execution loop (`execute_task_loop`, action.rs)

External collaborators (enigo init, filesystem, Tokio runtime, screenshot
pipeline, LLM) are supplied by a `LoopEnv`. ESC key presses by the user are
asynchronous in the source (the listener thread stores into
`ACTION_INTERRUPTED` at any time); they are modelled by `escPre` (a press
lands between the entry-time clear of the flag and the first loop check) and
`escDuring n` (a press lands during iteration `n`, visible from the next
check on). The loop itself never reads or writes `GLOBAL_APP_STATE`: the
embedding keeps `st.app` untouched exactly as the source does. -/

structure LoopEnv where
  geminiKey : Bool
  escPre : Bool
  escDuring : Nat → Bool
  enigoInit : Except (List Char) Unit
  mainCsvExists : Bool
  csvOpen : Except (List Char) Unit
  runtimeNew : Except (List Char) Unit
  screenCsv : Nat → Except (List Char) (List Char)
  llm : Nat → Except (List Char) (List Char)

/-- Outcome of `execute_task_loop`; `panicked` models the
`expect("GEMINI_API_KEY environment variable not set")` panic. -/
inductive TaskOutcome
  | ok (msg : List Char)
  | err (msg : List Char)
  | panicked
  deriving DecidableEq

def thinkEndTag : List Char := "</think>".toList

/-- Substring prefix test (Rust `str::find` building block). -/
def beginsWith : List Char → List Char → Bool
  | [], _ => true
  | _ :: _, [] => false
  | p :: ps, c :: cs => p = c && beginsWith ps cs

/-- Embeds Rust `str::find(pat)`: index of the first occurrence. -/
def findSubstrIdx (pat : List Char) : List Char → Option Nat
  | [] => if pat = [] then some 0 else none
  | c :: rest =>
    if beginsWith pat (c :: rest) then some 0
    else (findSubstrIdx pat rest).map (· + 1)

/-- Embeds step 3d of `execute_task_loop`: split the planner response at the
first `</think>`; without the tag the whole trimmed response is the action;
an empty action is a fatal parse error. -/
def extractAction (resp : List Char) : Except (List Char) (List Char) :=
  match findSubstrIdx thinkEndTag resp with
  | some i =>
    let action := rsTrim (resp.drop (i + thinkEndTag.length))
    if action = [] then .error ("LLM returned thought but no action.".toList)
    else .ok action
  | none =>
    let action := rsTrim resp
    if action = [] then .error ("LLM returned an empty response.".toList)
    else .ok action

/-- Embeds the completion-message extraction at the `done` exit of the loop:
`action.splitn(2, ':').nth(1).unwrap_or("Done").trim_matches(quote)`. -/
def loopDoneMsg (action : List Char) : List Char :=
  rsTrimMatchesChar sq
    (match rsSplitn2 ':' action with
     | some p => p.2
     | none => "Done".toList)

/-- One-per-iteration body of the action loop, by structural recursion on
fuel. From the real entry point (`c = 0`, fuel 102) the fuel never runs out:
the safety break fires as soon as the incremented counter exceeds
`MAX_ITERATIONS = 100`, i.e. at counter value 101, after at most 101 body
executions. Returns the outcome together with the final value of the
`ACTION_INTERRUPTED` flag (`stop_esc_listener` stores `false`). -/
def execIter (env : LoopEnv) : Nat → Bool → Nat → TaskOutcome × Bool
  | 0, flag, _ => (.err ("fuel exhausted (unreachable from the real entry)".toList), flag)
  | fuel + 1, flag, c =>
    if flag then
      -- interruption observed at the top of the iteration; stop_esc_listener runs
      (.err ("Action interrupted by user.".toList), false)
    else
      match env.screenCsv c with
      | .error e => (.err ("Failed to get current screen CSV: ".toList ++ e), false)
      | .ok _ =>
        match env.llm c with
        | .error e => (.err ("Error getting LLM response: ".toList ++ e), false)
        | .ok resp =>
          match extractAction resp with
          | .error e => (.err e, false)
          | .ok action =>
            -- the redundant `action_to_perform.is_empty()` safety check:
            -- extractAction already guarantees non-emptiness, as in the source
            if action = [] then (.err ("Extracted action was empty.".toList), false)
            else
              match do_action action with
              | (_, .error e) =>
                (.err ("Error executing action ".toList ++ [sq] ++ action ++ [sq]
                        ++ ": ".toList ++ e), false)
              | (_, .ok (.done _)) =>
                (.ok ("Task completed: ".toList ++ loopDoneMsg action), false)
              | (_, .ok .cont) =>
                let flag1 := flag || env.escDuring c
                let c1 := c + 1
                if c1 > 100 then (.err ("Loop safety break triggered.".toList), false)
                else execIter env fuel flag1 c1

/-- Embeds `execute_task_loop` (action.rs). Faithful points: the missing
GEMINI_API_KEY panics before the flag is cleared; `stop_esc_listener` (which
clears `ACTION_INTERRUPTED`) is called on the missing-main.csv path and on
every loop exit, but NOT on the three `?` early returns (Enigo init, csv
open, Tokio runtime creation); `GLOBAL_APP_STATE.input_state` is never read
or written anywhere in the function. -/
def execute_task_loop (env : LoopEnv) (st : ProcState) : TaskOutcome × ProcState :=
  if !env.geminiKey then (.panicked, st)
  else
    -- ACTION_INTERRUPTED.store(false); start_esc_listener()
    let stc : ProcState := { st with action_interrupted := false }
    match env.enigoInit with
    | .error e =>
      (.err ("Failed to initialize Enigo: ".toList ++ e),
       { stc with action_interrupted := env.escPre })
    | .ok _ =>
      let st2 : ProcState :=
        match stc.recSt.base_folder with
        | some _ => stc
        | none => { stc with recSt := { stc.recSt with base_folder := some defaultBaseFolder } }
      if !env.mainCsvExists then
        -- stop_esc_listener() clears the flag before this return
        (.err ("main.csv does not exist in the expected folder".toList),
         { st2 with action_interrupted := false })
      else
        match env.csvOpen with
        | .error e =>
          (.err ("Failed to read main.csv: ".toList ++ e),
           { st2 with action_interrupted := env.escPre })
        | .ok _ =>
          match env.runtimeNew with
          | .error e =>
            (.err ("Failed to create Tokio runtime: ".toList ++ e),
             { st2 with action_interrupted := env.escPre })
          | .ok _ =>
            let r := execIter env 102 env.escPre 0
            (r.1, { st2 with action_interrupted := r.2 })

/-- Embeds `start_act` (main.rs): spawns `execute_task_loop` and joins,
converting a panic of the worker thread into an `Err`. The source performs no
SessionMode check before running the loop and never writes `input_state`. -/
def start_act (env : LoopEnv) (st : ProcState) :
    Except (List Char) (List Char) × ProcState :=
  match execute_task_loop env st with
  | (.ok m, st1) => (.ok m, st1)
  | (.err m, st1) => (.error m, st1)
  | (.panicked, st1) =>
    (.error ("Action execution thread panicked: ...".toList), st1)

/-! ### The global listener during Recording (`setup_global_listener`, main.rs)

main.rs declares `mod llm; mod action;` only, so this listener (not the one
in recording_commands.rs) is the capture scheduler of the built program. In
Recording mode, with the recording active and verified, every ButtonPress,
ButtonRelease and Wheel event, and every non-Escape KeyPress, spawns a thread
that sleeps for a fixed delay and then captures unconditionally — there is no
pending set and no cancellation, so every scheduled capture fires. -/

inductive RawEvent
  | keyPress (escape : Bool) (name : List Char)
  | buttonPress
  | buttonRelease
  | wheel
  | mouseMove
  deriving DecidableEq

/-- A capture that fires: the time its timer elapses and its action label. -/
structure Fired where
  time : Nat
  label : List Char
  deriving DecidableEq

/-- Captures fired by the Recording arm of the main.rs listener for a trace of
timestamped input events (times in milliseconds), assuming the recording is
active and verified throughout. Delays are the source values: 0.5 s after
button press/release, 1 s after wheel and key events. -/
def mainListenerCaptures : List (Nat × RawEvent) → List Fired
  | [] => []
  | (t, e) :: rest =>
    (match e with
     | .buttonPress => [⟨t + 500, "MousePress".toList⟩]
     | .buttonRelease => [⟨t + 500, "MouseRelease".toList⟩]
     | .wheel => [⟨t + 1000, "MouseScroll".toList⟩]
     | .keyPress true _ => []
     | .keyPress false name => [⟨t + 1000, "KeyPress_".toList ++ name⟩]
     | .mouseMove => []) ++ mainListenerCaptures rest

/-- Key-category test: captures labelled by the key-press path. -/
def isKeyCapture (f : Fired) : Bool := beginsWith "KeyPress_".toList f.label

/-! ### The cancellable scheduler of recording_commands.rs

`schedule_screenshot` registers an id in the pending set, sleeps, and then
runs TWO separate critical sections: first the fire-check (recording active
and verified, and the id still pending), then — after releasing and
re-taking the lock — the removal of the id followed by the capture call.
`cancel_pending_key_screenshots` clears the pending set in its own critical
section. The interleaving of these atomic sections is modelled as an action
trace over a single timer; recording is active and verified throughout. -/

structure SchedState where
  pending : List Nat
  checked : Option Bool
  fired : Bool
  deriving DecidableEq

inductive SchedAction
  | timerCheck (id : Nat)
  | timerFinish (id : Nat)
  | cancelKeys
  deriving DecidableEq

/-- One atomic step: the timer's fire-check, the timer's remove-and-capture,
or a cancellation clearing the pending set. -/
def schedStep (s : SchedState) : SchedAction → SchedState
  | .timerCheck id =>
    match s.checked with
    | none => { s with checked := some (s.pending.contains id) }
    | some _ => s
  | .timerFinish id =>
    match s.checked with
    | some true =>
      if s.fired then s
      else { s with pending := s.pending.erase id, fired := true }
    | _ => s
  | .cancelKeys => { s with pending := [] }

def schedRun (s : SchedState) (tr : List SchedAction) : SchedState := tr.foldl schedStep s

/-! ### Auxiliary definitions shared by the theorems -/

/-- `Result::is_ok` style test. -/
def exceptOk {ε α : Type} : Except ε α → Bool
  | .ok _ => true
  | .error _ => false

/-- The reachable-state invariant of the session commands: an active recording
always has its base folder set (`start_recording` sets both together, nothing
clears the folder while active). -/
def recInv (st : ProcState) : Prop :=
  st.recSt.active = true → st.recSt.base_folder ≠ none

/-- A process state in which a verified recording is in progress. Reached by
`start_recording` followed by `verify_recording` from the initial Idle state. -/
def stateRecording : ProcState :=
  { app := { input_state := .Recording, action_interrupted := false }
    recSt := { active := true, verified := true
               base_folder := some defaultBaseFolder
               current_action_folder := none }
    action_interrupted := false }

/-- The planner line `done:'x'`. -/
def doneLineX : List Char := "done:".toList ++ [sq] ++ "x".toList ++ [sq]

/-- A benign loop environment: every external collaborator succeeds, the user
never presses ESC, and the planner immediately answers `done:'x'`. -/
def envBenignDone : LoopEnv :=
  { geminiKey := true
    escPre := false
    escDuring := fun _ => false
    enigoInit := .ok ()
    mainCsvExists := true
    csvOpen := .ok ()
    runtimeNew := .ok ()
    screenCsv := fun _ => .ok ("screen".toList)
    llm := fun _ => .ok doneLineX }

/-- Environment for C2: the user presses ESC while the loop preamble runs, and
opening main.csv fails, hitting the `?` early return of
`ReaderBuilder::from_path` at action.rs:343. -/
def envCsvFailEsc : LoopEnv :=
  { envBenignDone with escPre := true, csvOpen := .error ("io".toList) }

/-- Planner that answers a successful non-done action for the first 101
iterations (indices 0..100) and is never consulted afterwards. -/
def llmScrollCapped (n : Nat) : Except (List Char) (List Char) :=
  if n ≤ 100 then .ok ("scroll:1".toList) else .error ("called past the ceiling".toList)

def envScrollCapped : LoopEnv := { envBenignDone with llm := llmScrollCapped }

/-- Planner that answers `scroll:1` for iteration indices 0..99 (so the
counter reaches the ceiling value 100 after the 100th action) and answers
`done:'x'` when consulted again at index 100. -/
def llmDoneAt100 (n : Nat) : Except (List Char) (List Char) :=
  if n = 100 then .ok doneLineX else .ok ("scroll:1".toList)

def envDoneAt100 : LoopEnv := { envBenignDone with llm := llmDoneAt100 }

/-- Planner that succeeds for iteration indices 0..99 and fails if consulted
again: detects whether a 101st iteration runs after the counter reached 100. -/
def llmFailAt100 (n : Nat) : Except (List Char) (List Char) :=
  if n ≤ 99 then .ok ("scroll:1".toList)
  else .error ("llm consulted at iteration 101".toList)

def envFailAt100 : LoopEnv := { envBenignDone with llm := llmFailAt100 }

/-- A burst of five (non-Escape) key presses at 0, 100, 200, 300 and 400 ms:
all five fall inside a 1.5-second window. -/
def burstOfFive : List (Nat × RawEvent) :=
  [(0, .keyPress false ("KeyA".toList)),
   (100, .keyPress false ("KeyB".toList)),
   (200, .keyPress false ("KeyC".toList)),
   (300, .keyPress false ("KeyD".toList)),
   (400, .keyPress false ("KeyE".toList))]

/-- Scheduler state right after `schedule_screenshot` registered key-category
capture id 1 in the pending set and its timer began sleeping. -/
def sched0 : SchedState := { pending := [1], checked := none, fired := false }

/-- The planner response `<think>t</think>done:'Login successful.'`. -/
def loginResponse : List Char :=
  "<think>t</think>done:".toList ++ [sq] ++ "Login successful.".toList ++ [sq]

def envLoginDone : LoopEnv := { envBenignDone with llm := fun _ => .ok loginResponse }

/-- The action line `tap_down:'ab'`. -/
def tapDownAb : List Char := "tap_down:".toList ++ [sq] ++ "ab".toList ++ [sq]

/-! ### Invariant lemmas: `recInv` holds in every reachable state -/

/-- The initial process state (all statics start Idle / inactive / unset). -/
def initialState : ProcState :=
  { app := { input_state := .Idle, action_interrupted := false }
    recSt := { active := false, verified := false, base_folder := none
               current_action_folder := none }
    action_interrupted := false }

lemma recInv_initialState : recInv initialState := by
  intro h
  simp [initialState] at h

lemma recInv_start_recording (env : StartRecEnv) (st : ProcState) (h : recInv st) :
    recInv (start_recording env st).2 := by
  obtain ⟨⟨mode, ai⟩, ⟨act, ver, bf, caf⟩, esc⟩ := st
  unfold start_recording
  dsimp only
  split
  · exact h
  · cases env.createPaths with
    | error e => exact h
    | ok u =>
      cases env.findActionFolder with
      | error e => exact h
      | ok folder =>
        cases env.createMainCsv with
        | error e => exact h
        | ok u2 => intro _; simp

lemma recInv_verify_recording (st : ProcState) (h : recInv st) :
    recInv (verify_recording st).2 := by
  obtain ⟨⟨mode, ai⟩, ⟨act, ver, bf, caf⟩, esc⟩ := st
  unfold verify_recording
  dsimp only
  split
  · exact h
  · split
    · exact h
    · split
      · exact h
      · cases bf with
        | none => intro hh; exact h hh
        | some f => intro _; simp

lemma recInv_stop_recording (st : ProcState) (h : recInv st) :
    recInv (stop_recording st).2 := by
  obtain ⟨⟨mode, ai⟩, ⟨act, ver, bf, caf⟩, esc⟩ := st
  cases act with
  | false => exact h
  | true =>
    cases bf with
    | none => intro hh; simp [stop_recording] at hh
    | some f => intro hh; simp [stop_recording] at hh

lemma recInv_execute_task_loop (env : LoopEnv) (st : ProcState) (h : recInv st) :
    recInv (execute_task_loop env st).2 := by
  obtain ⟨⟨mode, ai⟩, ⟨act, ver, bf, caf⟩, esc⟩ := st
  unfold execute_task_loop
  dsimp only
  split
  · exact h
  · cases env.enigoInit with
    | error e => exact h
    | ok u =>
      cases bf with
      | none =>
        dsimp only
        split
        · intro _; simp
        · cases env.csvOpen with
          | error e => intro _; simp
          | ok u2 =>
            cases env.runtimeNew with
            | error e => intro _; simp
            | ok u3 => intro _; simp
      | some f =>
        dsimp only
        split
        · intro _; simp
        · cases env.csvOpen with
          | error e => intro _; simp
          | ok u2 =>
            cases env.runtimeNew with
            | error e => intro _; simp
            | ok u3 => intro _; simp

/-- Leftmost-match correctness of the regex search embedded by
`findCoordMatch`: if the coordinate pattern matches at position `i` and at no
earlier position, the search returns that match's captures. -/
lemma findCoordMatch_leftmost :
    ∀ (i : Nat) (cs : List Char) (caps : List Char × List Char),
      matchCoordAt (cs.drop i) = some caps →
      (∀ j, j < i → matchCoordAt (cs.drop j) = none) →
      findCoordMatch cs = some caps := by
  intro i
  induction i with
  | zero =>
    intro cs caps hm _
    cases cs with
    | nil => simp [matchCoordAt] at hm
    | cons c rest =>
      rw [List.drop_zero] at hm
      simp [findCoordMatch, hm]
  | succ i ih =>
    intro cs caps hm hf
    cases cs with
    | nil => simp [matchCoordAt] at hm
    | cons c rest =>
      have h0 : matchCoordAt (c :: rest) = none := by
        have h00 := hf 0 (Nat.succ_pos i)
        simpa using h00
      have hrec : findCoordMatch rest = some caps := by
        apply ih
        · simpa [List.drop_succ_cons] using hm
        · intro j hj
          have hh := hf (j + 1) (Nat.succ_lt_succ hj)
          simpa [List.drop_succ_cons] using hh
      simp [findCoordMatch, h0, hrec]

/-! ### The claims -/

/-- Claim C1 (code bug). The claim says every transition attempt into
Recording or ExecutingAction from a non-Idle mode fails with an error and
leaves the mode unchanged. `start_recording` does gate on Idle, but
`start_act` runs `execute_task_loop` without any SessionMode check and the
loop never reads or writes `input_state` (the intended gate is documented in
the comments at the end of main.rs but is absent from the code). Evaluated at
the failing input: `start_act` called while the mode is Recording, with every
external call succeeding and the planner immediately answering done, returns
`Ok` — the operation does not fail — and the mode remains Recording (it is
never set to ExecutingAction at all). -/
theorem C1_start_act_ignores_mode :
    (start_act envBenignDone stateRecording).1 = .ok ("Task completed: x".toList) ∧
    (start_act envBenignDone stateRecording).2.app.input_state = AppInputState.Recording := by
  exact ⟨by decide, by decide⟩

/-- Claim C2 (code bug). The claim says every exit path of the loop leaves
the cancellation flag false and the SessionMode Idle. Evaluated at the
failing input: entry mode Recording (reachable, since `start_act` performs no
mode check), an ESC press during the loop preamble, and a failure of
`ReaderBuilder::from_path` on main.csv. The resulting `?` early return at
action.rs:343 skips `stop_esc_listener`, so `ACTION_INTERRUPTED` is still
true when the loop returns, and `input_state` — which the loop never writes
on any path — is still Recording, not Idle. -/
theorem C2_early_return_skips_cleanup :
    (execute_task_loop envCsvFailEsc stateRecording).1 =
      .err ("Failed to read main.csv: io".toList) ∧
    (execute_task_loop envCsvFailEsc stateRecording).2.action_interrupted = true ∧
    (execute_task_loop envCsvFailEsc stateRecording).2.app.input_state =
      AppInputState.Recording := by
  exact ⟨by decide, by decide, by decide⟩

/-- Claim C3 (code bug). The claim says a burst of 5 key presses within 1.5 s
while recording is active and verified coalesces to at most one fired
Key-category capture. The listener actually wired into the built program
(`setup_global_listener`, main.rs — the only listener in the module tree)
schedules an unconditional Key capture 1 s after every non-Escape key press,
with no pending set and no cancellation (the TODO at main.rs:488 admits the
refined typing metric is unimplemented, contradicting the input-metrics rules
in the file-header comment). Evaluated at the failing input — five key
presses at 0, 100, 200, 300, 400 ms, all within a 1.5 s window — five
Key-category captures fire, never fewer. -/
theorem C3_burst_of_five_fires_five :
    burstOfFive.length = 5 ∧
    (burstOfFive.map Prod.fst).all (fun t => t + 1100 ≤ 1500) = true ∧
    ((mainListenerCaptures burstOfFive).filter isKeyCapture).length = 5 := by
  exact ⟨by decide, by decide, by decide⟩

/-- Claim C4 (code bug). The claim (and the invariant in the spec) says a
ScheduledCapture never fires after its id has been removed from the pending
set: removal and the fire-check must be atomic. In
`schedule_screenshot` (recording_commands.rs) the post-sleep fire-check
(lines 311-318) and the removal-plus-capture (lines 322-334) are two separate
critical sections, so a `cancel_pending_key_screenshots` interleaved between
them is ignored. The failing interleaving: the timer's check passes, the
cancellation clears the pending set (removing the id), and the timer then
still invokes the capture pipeline. The last conjunct records that a
cancellation that lands before the fire-check does prevent the capture. -/
theorem C4_fire_after_cancellation :
    (schedRun sched0 [.timerCheck 1, .cancelKeys]).pending = [] ∧
    (schedRun sched0 [.timerCheck 1, .cancelKeys]).fired = false ∧
    (schedRun sched0 [.timerCheck 1, .cancelKeys, .timerFinish 1]).fired = true ∧
    (schedRun sched0 [.cancelKeys, .timerCheck 1, .timerFinish 1]).fired = false := by
  exact ⟨by decide, by decide, by decide, by decide⟩

/-- Claim C5 counterexample. The claim says the loop terminates with the
safety-break error when the iteration counter REACHES 100, never continuing
past the ceiling and never ending in a silent success. The source increments
`loop_count` after each successful non-done action and breaks only when
`loop_count > MAX_ITERATIONS` (action.rs:579), so after the counter reaches
100 one further iteration still runs. First conjunct: with a planner that
answers `scroll:1` for iteration indices 0..99 and `done:'x'` at index 100,
the loop returns `Ok` — it continued past the ceiling and ended successfully.
Second conjunct: with a planner that fails when consulted at index 100, the
loop reports that planner error — proving the 101st iteration runs instead of
the safety break firing at counter 100. -/
theorem C5_continues_past_ceiling :
    (execute_task_loop envDoneAt100 stateRecording).1 =
      .ok ("Task completed: x".toList) ∧
    (execute_task_loop envFailAt100 stateRecording).1 =
      .err ("Error getting LLM response: llm consulted at iteration 101".toList) := by
  exact ⟨by decide, by decide⟩

/-- Claim C5 as amended: the loop terminates with the distinct safety-break
error `Loop safety break triggered.` when the iteration counter EXCEEDS 100,
i.e. after the 101st non-done successful iteration; it executes no 102nd
iteration. The planner here succeeds for iteration indices 0..100 and would
fail if consulted past the ceiling; the outcome being the safety-break error
(and not that planner failure) shows the break fires at counter value 101 and
nothing runs beyond it. -/
theorem C5_safety_break_when_counter_exceeds_100 :
    (execute_task_loop envScrollCapped stateRecording).1 =
      .err ("Loop safety break triggered.".toList) := by
  decide

/-- Claim C6 (confirmed). DSL round-trip: `click:(125,265)` moves to and
clicks at (125,265); `type:'hello world'` types the literal text with the
quotes stripped and no escaping; `scroll:-5` scrolls by the signed distance
-5; `done:'Login successful.'` returns Ok(false) with completion message
`Login successful.`, and a full loop iteration fed that planner line (behind
a think tag) terminates successfully with that message. -/
theorem C6_dsl_round_trip :
    do_action ("click:(125,265)".toList) =
      ([.moveMouseAbs 125 265, .buttonClick], .ok .cont) ∧
    do_action ("type:".toList ++ [sq] ++ "hello world".toList ++ [sq]) =
      ([.textOp ("hello world".toList)], .ok .cont) ∧
    do_action ("scroll:-5".toList) = ([.scrollV (-5)], .ok .cont) ∧
    do_action ("done:".toList ++ [sq] ++ "Login successful.".toList ++ [sq]) =
      ([], .ok (.done ("Login successful.".toList))) ∧
    (execute_task_loop envLoginDone stateRecording).1 =
      .ok ("Task completed: Login successful.".toList) := by
  exact ⟨by decide, by decide, by decide, by decide, by decide⟩

/-- Claim C7 (confirmed). `stop_recording` is idempotent: from any state
satisfying the reachable-state invariant (an active recording has its base
folder set — established by `recInv_initialState` and preserved by every
session command, see the `recInv_*` lemmas), two consecutive calls both
return Ok and each leaves the process-wide mode Idle. -/
theorem C7_stop_recording_idempotent (st : ProcState) (h : recInv st) :
    exceptOk (stop_recording st).1 = true ∧
    (stop_recording st).2.app.input_state = AppInputState.Idle ∧
    exceptOk (stop_recording (stop_recording st).2).1 = true ∧
    (stop_recording (stop_recording st).2).2.app.input_state = AppInputState.Idle := by
  obtain ⟨⟨mode, ai⟩, ⟨act, ver, bf, caf⟩, esc⟩ := st
  cases act with
  | false => exact ⟨rfl, rfl, rfl, rfl⟩
  | true =>
    cases bf with
    | none => exact absurd rfl (h rfl)
    | some f => exact ⟨rfl, rfl, rfl, rfl⟩

/-- Witness for C7 at a concrete mid-recording state. -/
theorem C7_witness :
    exceptOk (stop_recording stateRecording).1 = true ∧
    (stop_recording stateRecording).2.app.input_state = AppInputState.Idle ∧
    exceptOk (stop_recording (stop_recording stateRecording).2).1 = true ∧
    (stop_recording (stop_recording stateRecording).2).2.app.input_state =
      AppInputState.Idle :=
  C7_stop_recording_idempotent stateRecording (fun _ => by decide)

/-- Claim C8 (confirmed). The malformed line `tap_down:'ab'` (multi-character
payload with no key mapping, not a single literal character) fails in
`parse_key` with the parse error `Unknown or unsupported key: 'ab'`, and the
empty operation trace shows no Input Capability call was issued. -/
theorem C8_tap_down_multichar_is_parse_error :
    do_action tapDownAb =
      ([], .error ("Unknown or unsupported key: ".toList ++ [sq] ++ "ab".toList ++ [sq])) := by
  decide

/-- Claim C9 (confirmed, implicit). The coordinate parser is not anchored:
whenever the pattern `(intX,intY)` (optional whitespace, optional minus sign)
matches somewhere in the payload, `parse_coordinate` succeeds and returns the
leftmost such pair (provided its numbers fit in i32), and in particular the
garbage-wrapped payload `click:junk(1,2)junk` is accepted and clicks at
(1,2). -/
theorem C9_coordinate_parser_not_anchored (cs : List Char) (i : Nat)
    (xs ys : List Char) (x y : Int)
    (hm : matchCoordAt (cs.drop i) = some (xs, ys))
    (hf : ∀ j, j < i → matchCoordAt (cs.drop j) = none)
    (hx : rsParseI32 xs = .ok x) (hy : rsParseI32 ys = .ok y) :
    parse_coordinate cs = .ok (x, y) ∧
    do_action ("click:junk(1,2)junk".toList) =
      ([.moveMouseAbs 1 2, .buttonClick], .ok .cont) := by
  have hfind := findCoordMatch_leftmost i cs (xs, ys) hm hf
  refine ⟨?_, by decide⟩
  simp [parse_coordinate, hfind, hx, hy]

/-- Witness for C9: the pattern matches `junk(1,2)junk` at position 4 and at
no earlier position, and parsing returns (1,2). -/
theorem C9_witness :
    parse_coordinate ("junk(1,2)junk".toList) = .ok (1, 2) ∧
    do_action ("click:junk(1,2)junk".toList) =
      ([.moveMouseAbs 1 2, .buttonClick], .ok .cont) :=
  C9_coordinate_parser_not_anchored ("junk(1,2)junk".toList) 4
    ("1".toList) ("2".toList) 1 2 (by decide) (by decide) (by decide) (by decide)

/-- Claim C10 (confirmed, implicit). The `done` payload, unlike `type`, does
not require quotes: for every payload `v` the line `done:v` succeeds with
Ok(false), the completion message being `v` trimmed with one pair of
surrounding single quotes stripped only when the trimmed payload both starts
and ends with a quote (and is long enough to hold both); the unquoted
`done:finished` is accepted while the unquoted `type:finished` is a parse
error. -/
theorem C10_done_payload_unquoted (v : List Char) :
    do_action ("done:".toList ++ v) =
      ([], .ok (.done
        (if rsStartsWithChar sq (rsTrim v) && rsEndsWithChar sq (rsTrim v) &&
             2 ≤ (rsTrim v).length
         then ((rsTrim v).drop 1).dropLast else rsTrim v))) ∧
    do_action ("done:finished".toList) = ([], .ok (.done ("finished".toList))) ∧
    do_action ("type:finished".toList) =
      ([], .error ("Invalid type format: finished".toList)) := by
  exact ⟨rfl, by decide, by decide⟩

/-- Witness for C10 at the quoted payload `'hi'`. -/
theorem C10_witness :
    do_action ("done:".toList ++ ([sq] ++ "hi".toList ++ [sq])) =
      ([], .ok (.done
        (if rsStartsWithChar sq (rsTrim ([sq] ++ "hi".toList ++ [sq])) &&
             rsEndsWithChar sq (rsTrim ([sq] ++ "hi".toList ++ [sq])) &&
             2 ≤ (rsTrim ([sq] ++ "hi".toList ++ [sq])).length
         then ((rsTrim ([sq] ++ "hi".toList ++ [sq])).drop 1).dropLast
         else rsTrim ([sq] ++ "hi".toList ++ [sq])))) ∧
    do_action ("done:finished".toList) = ([], .ok (.done ("finished".toList))) ∧
    do_action ("type:finished".toList) =
      ([], .error ("Invalid type format: finished".toList)) :=
  C10_done_payload_unquoted ([sq] ++ "hi".toList ++ [sq])

end Metis
